import Mathlib

/-!
Verification of the moderation decision core of the telegram-bot-moderation-skv
repository, shallowly embedded from the Python sources (src/antispam.py,
src/database.py, src/openai_analyzer.py, src/bot.py, src/config.py).

Modelling conventions:
* timestamps are integers (seconds); Python `time.time()` / `datetime`
  arithmetic is modelled with exact integer arithmetic;
* Python floats holding confidences/thresholds are modelled as rationals
  (the program only compares simple decimal constants, where float and
  rational comparison agree);
* `str.lower()` / `str.strip()` / `pat in s` / `" ".join` are modelled by
  executable character-list functions (`py_lower`, `py_strip`,
  `substrOccurs`, `py_join`) mirroring Python semantics;
* the external `difflib.SequenceMatcher(...).ratio()` similarity metric is an
  abstract parameter `ratio` of the spam detector (the repository treats it
  as an opaque symmetric similarity score);
* SQLite tables become Lean lists; `cursor.lastrowid` becomes an explicit
  `next_appeal_id` counter; the bookkeeping columns `created_at`/`updated_at`
  are not modelled (no claim mentions them).
-/

namespace SkvBot

/-! ## Antispam system (src/antispam.py) -/

/-- Python `SpamDetectionResult` dataclass (src/antispam.py lines 13-20). -/
structure SpamDetectionResult where
  is_spam : Bool
  spam_type : String
  confidence : Rat
  reason : String
  action : String
deriving Repr, DecidableEq

/-- Python `UserMessageHistory` dataclass (src/antispam.py lines 22-28); the two
deques carry `maxlen=20`. -/
structure UserMessageHistory where
  messages : List String := []
  timestamps : List Int := []
  spam_violations : Nat := 0
  last_violation_time : Int := 0
deriving Repr, DecidableEq

/-- Appending to a `deque(maxlen := cap)`: at capacity the oldest (leftmost)
element is evicted. -/
def dequePush (cap : Nat) (xs : List α) (x : α) : List α :=
  if cap ≤ xs.length then xs.tail ++ [x] else xs ++ [x]

/-- Antispam settings (src/antispam.py lines 38-44). -/
def FLOOD_MESSAGES_LIMIT : Nat := 5

def FLOOD_TIME_WINDOW : Int := 60

def DUPLICATE_TIME_WINDOW : Int := 300

def SIMILARITY_THRESHOLD : Rat := mkRat 8 10

def SHORT_MESSAGE_LIMIT : Nat := 3

def SHORT_MESSAGE_LENGTH : Nat := 10

def SHORT_MESSAGE_TIME_WINDOW : Int := 120

/-- Python `SPAM_PATTERNS` (src/antispam.py lines 47-51). -/
def SPAM_PATTERNS : List String :=
  ["ау", "аууу", "ответьте", "отвечайте", "эй", "где все", "алло",
   "???", "!!!", "где вода", "где", "когда", "почему", "ну и",
   "блин", "опять", "снова", "опааа"]

/-- Python's `str.lower()`, over the character list (ASCII case mapping;
every concrete input below is ASCII or already-lowercase Cyrillic, where
this agrees with Python). -/
def py_lower (s : String) : String :=
  String.mk (s.data.map Char.toLower)

/-- Python's `str.strip()`: whitespace removed from both ends. -/
def py_strip (s : String) : String :=
  String.mk (((s.data.dropWhile Char.isWhitespace).reverse.dropWhile
    Char.isWhitespace).reverse)

/-- Normalization `message_text.lower().strip()` used throughout
src/antispam.py. -/
def normalize (s : String) : String := py_strip (py_lower s)

/-- Helper for the substring test: does `pat` start the list? -/
def startsWith : List Char → List Char → Bool
  | _, [] => true
  | [], _ :: _ => false
  | c :: cs, p :: ps => c == p && startsWith cs ps

/-- Does `pat` occur contiguously anywhere in the list? -/
def occursIn (pat : List Char) : List Char → Bool
  | [] => startsWith [] pat
  | c :: cs => startsWith (c :: cs) pat || occursIn pat cs

/-- Python's `pat in s` substring test. -/
def substrOccurs (s pat : String) : Bool :=
  occursIn pat.data s.data

/-- Python's `" ".join(args)`. -/
def py_join (args : List String) : String :=
  String.mk (List.intercalate [' '] (args.map String.data))

/-- Python's slice `s[:n]` (by characters). -/
def py_take (s : String) (n : Nat) : String :=
  String.mk (s.data.take n)

/-- Python `_get_action_by_violations` (src/antispam.py lines 200-207). -/
def get_action_by_violations (violations : Nat) : String :=
  if violations == 0 then "warn"
  else if violations == 1 then "mute"
  else "ban"

/-- Python `_add_violation` (src/antispam.py lines 195-198). -/
def add_violation_history (history : UserMessageHistory) (current_time : Int) :
    UserMessageHistory :=
  { history with
    spam_violations := history.spam_violations + 1
    last_violation_time := current_time }

/-- Python `_check_flood` (src/antispam.py lines 100-118): count history timestamps
within `FLOOD_TIME_WINDOW` of now; at least `FLOOD_MESSAGES_LIMIT` of them
means flood. -/
def check_flood (history : UserMessageHistory) (current_time : Int) :
    Option SpamDetectionResult :=
  let recent_messages :=
    history.timestamps.countP (fun t => decide (current_time - t ≤ FLOOD_TIME_WINDOW))
  if FLOOD_MESSAGES_LIMIT ≤ recent_messages then
    some { is_spam := true
           spam_type := "flood"
           confidence := mkRat 9 10
           reason := "Отправлено " ++ toString recent_messages ++ " сообщений за "
             ++ toString FLOOD_TIME_WINDOW ++ " секунд"
           action := get_action_by_violations history.spam_violations }
  else none

/-- Python `_check_duplicates` (src/antispam.py lines 120-140). -/
def check_duplicates (history : UserMessageHistory) (message_text : String)
    (current_time : Int) : Option SpamDetectionResult :=
  let message_lower := normalize message_text
  let duplicate_count :=
    (history.messages.zip history.timestamps).countP
      (fun p => decide (current_time - p.2 ≤ DUPLICATE_TIME_WINDOW) && (p.1 == message_lower))
  if 2 ≤ duplicate_count then
    some { is_spam := true
           spam_type := "duplicate"
           confidence := 1
           reason := "Дублированное сообщение (найдено " ++ toString duplicate_count
             ++ " копий)"
           action := get_action_by_violations history.spam_violations }
  else none

/-- Python `_check_similar_messages` (src/antispam.py lines 142-163); `ratio` stands
for `SequenceMatcher(None, message_lower, msg).ratio()`. -/
def check_similar_messages (ratio : String → String → Rat)
    (history : UserMessageHistory) (message_text : String) (current_time : Int) :
    Option SpamDetectionResult :=
  let message_lower := normalize message_text
  let similar_count :=
    (history.messages.zip history.timestamps).countP
      (fun p => decide (current_time - p.2 ≤ DUPLICATE_TIME_WINDOW) &&
        (decide (SIMILARITY_THRESHOLD ≤ ratio message_lower p.1) &&
         decide (message_lower.length ≤ 20)))
  if 2 ≤ similar_count then
    some { is_spam := true
           spam_type := "similar"
           confidence := mkRat 8 10
           reason := "Похожие сообщения (" ++ toString similar_count ++ " найдено)"
           action := get_action_by_violations history.spam_violations }
  else none

/-- Python `_check_short_message_spam` (src/antispam.py lines 165-193). -/
def check_short_message_spam (history : UserMessageHistory) (message_text : String)
    (current_time : Int) : Option SpamDetectionResult :=
  let message_lower := normalize message_text
  let is_spam_pattern := SPAM_PATTERNS.any (fun pat => substrOccurs message_lower pat)
  let is_short := decide (message_text.length ≤ SHORT_MESSAGE_LENGTH)
  if !(is_spam_pattern || is_short) then none
  else
    let short_messages_count :=
      (history.messages.zip history.timestamps).countP
        (fun p => decide (current_time - p.2 ≤ SHORT_MESSAGE_TIME_WINDOW) &&
          (decide (p.1.length ≤ SHORT_MESSAGE_LENGTH) ||
           SPAM_PATTERNS.any (fun pat => substrOccurs p.1 pat)))
    if SHORT_MESSAGE_LIMIT ≤ short_messages_count then
      some { is_spam := true
             spam_type := "short_spam"
             confidence := mkRat 7 10
             reason := "Спам короткими сообщениями (" ++ toString short_messages_count
               ++ " за " ++ toString (SHORT_MESSAGE_TIME_WINDOW / 60) ++ " мин)"
             action := get_action_by_violations history.spam_violations }
    else none

/-- Python `check_message` (src/antispam.py lines 53-98): runs the four heuristics in
priority order; a match increments `spam_violations` and the message is
discarded; no match appends the normalized message to the bounded history.
Returns the detection result together with the user's updated history. -/
def check_message (ratio : String → String → Rat) (history : UserMessageHistory)
    (message_text : String) (current_time : Int) :
    Option SpamDetectionResult × UserMessageHistory :=
  if (py_strip message_text).length == 0 then (none, history)
  else
    match check_flood history current_time with
    | some r => (some r, add_violation_history history current_time)
    | none =>
    match check_duplicates history message_text current_time with
    | some r => (some r, add_violation_history history current_time)
    | none =>
    match check_similar_messages ratio history message_text current_time with
    | some r => (some r, add_violation_history history current_time)
    | none =>
    match check_short_message_spam history message_text current_time with
    | some r => (some r, add_violation_history history current_time)
    | none =>
      (none,
        { history with
          messages := dequePush 20 history.messages (normalize message_text)
          timestamps := dequePush 20 history.timestamps current_time })

/-- Feeding a sequence of (text, arrival time) messages through
`check_message`, collecting each detection outcome. -/
def runMessages (ratio : String → String → Rat) (history : UserMessageHistory) :
    List (String × Int) → List (Option SpamDetectionResult) × UserMessageHistory
  | [] => ([], history)
  | (msg, t) :: rest =>
    let step := check_message ratio history msg t
    let tail := runMessages ratio step.2 rest
    (step.1 :: tail.1, tail.2)

/-- A concrete similarity metric used for closed evaluations; every concrete
input below has normalized length > 20, where `check_similar_messages`
ignores the metric entirely. -/
def ratioZero : String → String → Rat := fun _ _ => 0

/-! ## Database (src/database.py) -/

/-- The moderation-relevant columns of a `users` row (src/database.py). -/
structure DBUser where
  user_id : Int
  warnings_count : Nat := 0
  is_banned : Bool := false
  ban_until : Option Int := none
  joined_chat_at : Option Int := none
  messages_count : Nat := 0
  link_violations_count : Nat := 0
deriving Repr, DecidableEq

/-- A `violations` row (src/database.py, `add_violation`). -/
structure ViolationRecord where
  user_id : Int
  message_id : Int
  violation_type : String
  violation_text : String
  action_taken : String
  ai_confidence : Option Rat := none
deriving Repr, DecidableEq

/-- An `appeals` row (src/database.py); a fresh row has status `"pending"`. -/
structure Appeal where
  id : Nat
  user_id : Int
  appeal_text : String
  status : String := "pending"
  admin_id : Option Int := none
  admin_response : Option String := none
deriving Repr, DecidableEq

/-- The SQLite database: tables as lists, plus the AUTOINCREMENT counter
feeding `cursor.lastrowid` for `appeals` (which starts at 1 in SQLite). -/
structure DB where
  users : List DBUser := []
  violations : List ViolationRecord := []
  appeals : List Appeal := []
  next_appeal_id : Nat := 1
deriving Repr, DecidableEq

/-- Python `get_user` (src/database.py): `SELECT * FROM users WHERE user_id = ?`. -/
def get_user (db : DB) (uid : Int) : Option DBUser :=
  db.users.find? (fun u => u.user_id == uid)

/-- Python `UPDATE users SET ... WHERE user_id = ?`, applied as a row transform. -/
def update_user (db : DB) (uid : Int) (f : DBUser → DBUser) : DB :=
  { db with users := db.users.map (fun u => if u.user_id == uid then f u else u) }

/-- Python `add_warning` (src/database.py lines 262-284): increments
`warnings_count` and returns the new total; on a missing user the Python
code raises (the `SELECT` fetch fails), modelled as `none` with the
transaction rolled back. -/
def add_warning (db : DB) (uid : Int) : Option (Nat × DB) :=
  match get_user db uid with
  | none => none
  | some u =>
    some (u.warnings_count + 1,
      update_user db uid (fun v => { v with warnings_count := v.warnings_count + 1 }))

/-- Python `ban_user` (src/database.py lines 286-307): `if duration_minutes:` is a
Python truthiness test, so `None` and `0` both give a permanent ban. -/
def ban_user (db : DB) (uid : Int) (duration_minutes : Option Int) (now : Int) : DB :=
  let ban_until : Option Int :=
    match duration_minutes with
    | some d => if d == 0 then none else some (now + d * 60)
    | none => none
  update_user db uid (fun u => { u with is_banned := true, ban_until := ban_until })

/-- Python `unban_user` (src/database.py lines 309-326). -/
def unban_user (db : DB) (uid : Int) : DB :=
  update_user db uid (fun u => { u with is_banned := false, ban_until := none })

/-- Python `is_user_banned` (src/database.py lines 328-339): an expired finite ban
is implicitly cleared at query time, so the query may mutate the store. -/
def is_user_banned (db : DB) (uid : Int) (now : Int) : Bool × DB :=
  match get_user db uid with
  | none => (false, db)
  | some u =>
    if !u.is_banned then (false, db)
    else
      match u.ban_until with
      | some t => if t ≤ now then (false, unban_user db uid) else (true, db)
      | none => (true, db)

/-- Trust thresholds (src/config.py lines 37-38). -/
def TRUST_DAYS_THRESHOLD : Int := 3

def TRUST_MESSAGES_THRESHOLD : Nat := 10

/-- Python `calculate_trust_level` (src/database.py lines 503-520);
`(datetime.now() - joined).days` is floor division of the elapsed seconds
by 86400. -/
def calculate_trust_level (db : DB) (uid : Int) (now : Int) : String :=
  match get_user db uid with
  | none => "new"
  | some u =>
    match u.joined_chat_at with
    | none => "new"
    | some j =>
      let days_in_chat := (now - j).fdiv 86400
      if TRUST_DAYS_THRESHOLD ≤ days_in_chat ∧
         TRUST_MESSAGES_THRESHOLD ≤ u.messages_count then "trusted"
      else if 0 < u.link_violations_count then "suspicious"
      else "new"

/-- Python `add_violation` (src/database.py lines 341-360): appends one row to the
append-only `violations` table. -/
def add_violation (db : DB) (uid : Int) (mid : Int) (vtype vtext action : String)
    (conf : Option Rat) : DB :=
  { db with violations := db.violations ++
      [{ user_id := uid, message_id := mid, violation_type := vtype,
         violation_text := vtext, action_taken := action, ai_confidence := conf }] }

/-- Python `add_appeal` (src/database.py lines 657-685): returns `-1` when a pending
appeal already exists for the user, else inserts a fresh pending row and
returns its id. -/
def add_appeal (db : DB) (uid : Int) (appeal_text : String) : Int × DB :=
  if db.appeals.any (fun a => a.user_id == uid && a.status == "pending") then
    (-1, db)
  else
    ((db.next_appeal_id : Int),
     { db with
       appeals := db.appeals ++
         [{ id := db.next_appeal_id, user_id := uid, appeal_text := appeal_text }]
       next_appeal_id := db.next_appeal_id + 1 })

/-- Python `get_appeal_by_id` (src/database.py lines 743-769). -/
def get_appeal_by_id (db : DB) (appeal_id : Nat) : Option Appeal :=
  db.appeals.find? (fun a => a.id == appeal_id)

/-- Python `update_appeal_status` (src/database.py lines 719-742): the update
succeeds (`rowcount > 0`) iff a row with that id exists. -/
def update_appeal_status (db : DB) (appeal_id : Nat) (status : String)
    (admin_id : Int) (admin_response : Option String) : Bool × DB :=
  (db.appeals.any (fun a => a.id == appeal_id),
   { db with appeals := db.appeals.map (fun a =>
       if a.id == appeal_id then
         { a with status := status, admin_id := some admin_id,
                  admin_response := admin_response }
       else a) })

/-! ## Configuration (src/config.py) and OpenAI analyzer (src/openai_analyzer.py) -/

/-- The configuration fields read by the modelled code paths
(src/config.py, `BotConfig`). -/
structure BotConfigM where
  AUTO_DELETE_BANNED_WORDS : Bool := true
  AUTO_BAN_ON_BANNED_WORDS : Bool := true
  BAN_DURATION_MINUTES : Int := 60
  WARNING_THRESHOLD : Nat := 3
  OPENAI_ANALYSIS_THRESHOLD : Rat := mkRat 95 100
deriving Repr, DecidableEq

/-- The default configuration (src/config.py lines 23-26, 46). -/
def bot_config : BotConfigM := {}

/-- Python `AnalysisResult` dataclass (src/openai_analyzer.py). -/
structure AnalysisResult where
  violation : Bool
  violation_type : String := "spam"
  confidence : Rat
  reason : String := ""
  action : String
deriving Repr, DecidableEq

/-- Python `is_violation_significant` (src/openai_analyzer.py lines 164-177). -/
def is_violation_significant (cfg : BotConfigM) (analysis : AnalysisResult) : Bool :=
  if !analysis.violation then false
  else decide (cfg.OPENAI_ANALYSIS_THRESHOLD ≤ analysis.confidence)

/-- Python `get_recommended_action` (src/openai_analyzer.py lines 179-204). -/
def get_recommended_action (cfg : BotConfigM) (analysis : AnalysisResult)
    (user_warnings : Nat) : String :=
  if !is_violation_significant cfg analysis then "none"
  else if decide (mkRat 9 10 ≤ analysis.confidence) &&
          (analysis.action == "ban" || analysis.action == "mute") then analysis.action
  else if cfg.WARNING_THRESHOLD ≤ user_warnings then "ban"
  else if cfg.WARNING_THRESHOLD - 1 ≤ user_warnings then "mute"
  else if analysis.action == "warn" || analysis.action == "delete" then "warn"
  else analysis.action

/-! ## Bot handlers (src/bot.py)

The handlers are modelled from the point where their inputs are parsed and
admin checks have passed; the elided prefixes only read transport state and
reply, never touching the database or the antispam state. Each handler
returns its visible outcome together with the updated database (and, for the
banned-words path, the user's antispam history, which that path never
touches). -/

/-- Python `handle_banned_words_violation` (src/bot.py lines 241-279): logs the
violation, then under `AUTO_BAN_ON_BANNED_WORDS` bans outright; otherwise
adds a warning and bans only when the warning total reaches
`WARNING_THRESHOLD`. The returned list holds the `notify_user_action`
events in order; `none` models the raise on a missing user row. -/
def handle_banned_words_violation (cfg : BotConfigM) (db : DB)
    (spam_state : UserMessageHistory) (uid mid : Int) (text : String) (now : Int) :
    Option (List (String × String) × DB × UserMessageHistory) :=
  let db1 := add_violation db uid mid "bad_language" (py_take text 500) "delete" none
  if cfg.AUTO_BAN_ON_BANNED_WORDS then
    some ([("banned", "Использование запрещенной лексики")],
          ban_user db1 uid (some cfg.BAN_DURATION_MINUTES) now, spam_state)
  else
    match add_warning db1 uid with
    | none => none
    | some (w, db2) =>
      if cfg.WARNING_THRESHOLD ≤ w then
        some ([("warned", "Предупреждение " ++ toString w),
               ("banned", "Превышен лимит предупреждений")],
              ban_user db2 uid (some cfg.BAN_DURATION_MINUTES) now, spam_state)
      else
        some ([("warned", "Предупреждение " ++ toString w)], db2, spam_state)

/-- Visible outcome of `/appeal` (src/bot.py `cmd_appeal`). -/
inductive AppealCmdResult where
  | not_banned
  | usage
  | too_short
  | too_long
  | already_pending
  | db_error
  | accepted (appeal_id : Int)
deriving Repr, DecidableEq

/-- Python `cmd_appeal` (src/bot.py lines 871-910): the ban check runs first (and
may implicitly clear an expired ban), then argument/length validation, then
`add_appeal`. -/
def cmd_appeal (db : DB) (uid : Int) (args : List String) (now : Int) :
    AppealCmdResult × DB :=
  let br := is_user_banned db uid now
  if !br.1 then (.not_banned, br.2)
  else if args.length < 1 then (.usage, br.2)
  else
    let appeal_text := py_join args
    if appeal_text.length < 10 then (.too_short, br.2)
    else if 1000 < appeal_text.length then (.too_long, br.2)
    else
      let ar := add_appeal br.2 uid appeal_text
      if ar.1 == -1 then (.already_pending, ar.2)
      else if ar.1 == 0 then (.db_error, ar.2)
      else (.accepted ar.1, ar.2)

/-- Visible outcome of `/accept_appeal` (src/bot.py `cmd_accept_appeal`). -/
inductive AcceptAppealResult where
  | not_found
  | already_resolved
  | confirmation_prompt (appeal_id : Nat)
deriving Repr, DecidableEq

/-- Python `cmd_accept_appeal` (src/bot.py lines 958-996): validates the appeal and
replies with a confirmation prompt; it performs no write. -/
def cmd_accept_appeal (db : DB) (appeal_id : Nat) : AcceptAppealResult × DB :=
  match get_appeal_by_id db appeal_id with
  | none => (.not_found, db)
  | some a =>
    if a.status != "pending" then (.already_resolved, db)
    else (.confirmation_prompt appeal_id, db)

/-- Visible outcome of `/confirm_accept` (src/bot.py `cmd_confirm_accept`). -/
inductive ConfirmAcceptResult where
  | not_found_or_resolved
  | accepted_unbanned
  | update_error
deriving Repr, DecidableEq

/-- Python `cmd_confirm_accept` (src/bot.py lines 1041-1082): re-validates pending
status, then sets the appeal approved and unbans the appeal's user. -/
def cmd_confirm_accept (db : DB) (appeal_id : Nat) (admin_id : Int) :
    ConfirmAcceptResult × DB :=
  match get_appeal_by_id db appeal_id with
  | none => (.not_found_or_resolved, db)
  | some a =>
    if a.status != "pending" then (.not_found_or_resolved, db)
    else
      let ur := update_appeal_status db appeal_id "approved" admin_id
        (some "Обжалование принято")
      if ur.1 then (.accepted_unbanned, unban_user ur.2 a.user_id)
      else (.update_error, ur.2)

/-- Invariant: at most one pending appeal per user (spec data-model
invariant, enforced by `add_appeal`). -/
def atMostOnePending (db : DB) : Prop :=
  ∀ uid : Int,
    (db.appeals.filter (fun a => a.user_id == uid && a.status == "pending")).length ≤ 1

/-! ## Helper lemmas -/

/-- Updating a user row in place commutes with looking the user up, as long
as the update keeps the key. -/
theorem get_user_update (db : DB) (uid : Int) (f : DBUser → DBUser)
    (hf : ∀ v, (f v).user_id = v.user_id) (u : DBUser)
    (hu : get_user db uid = some u) :
    get_user (update_user db uid f) uid = some (f u) := by
  unfold get_user update_user
  unfold get_user at hu
  rw [List.find?_map]
  have hcomp : ((fun v : DBUser => v.user_id == uid) ∘
      (fun v => if v.user_id == uid then f v else v)) =
      (fun v : DBUser => v.user_id == uid) := by
    funext v
    simp only [Function.comp_apply]
    by_cases h : (v.user_id == uid) = true
    · rw [if_pos h, hf v]
    · rw [if_neg h]
  rw [hcomp, hu]
  have hp := List.find?_some hu
  show some (if (u.user_id == uid) = true then f u else u) = some (f u)
  rw [if_pos hp]

/-- Rewriting an appeal row in place commutes with looking the appeal up, as
long as the rewrite keeps the key. -/
theorem get_appeal_update (db : DB) (aid : Nat) (f : Appeal → Appeal)
    (hf : ∀ v, (f v).id = v.id) (a : Appeal)
    (ha : get_appeal_by_id db aid = some a) :
    (db.appeals.map (fun v => if v.id == aid then f v else v)).find?
      (fun v => v.id == aid) = some (f a) := by
  unfold get_appeal_by_id at ha
  rw [List.find?_map]
  have hcomp : ((fun v : Appeal => v.id == aid) ∘
      (fun v => if v.id == aid then f v else v)) =
      (fun v : Appeal => v.id == aid) := by
    funext v
    simp only [Function.comp_apply]
    by_cases h : (v.id == aid) = true
    · rw [if_pos h, hf v]
    · rw [if_neg h]
  rw [hcomp, ha]
  have hp := List.find?_some ha
  show some (if (a.id == aid) = true then f a else a) = some (f a)
  rw [if_pos hp]

/-- When `is_user_banned` answers `true` it has not touched the store. -/
theorem is_user_banned_true_frame (db : DB) (uid : Int) (now : Int)
    (h : (is_user_banned db uid now).1 = true) :
    (is_user_banned db uid now).2 = db := by
  unfold is_user_banned at h ⊢
  cases hu : get_user db uid with
  | none => rfl
  | some u =>
    rw [hu] at h
    cases hb : u.is_banned with
    | false => simp [hb] at h
    | true =>
      cases hbu : u.ban_until with
      | none => simp [hb, hbu]
      | some t =>
        by_cases ht : t ≤ now
        · simp [hb, hbu, ht] at h
        · simp [hb, hbu, ht]

/-- The flood heuristic stamps the action computed from the pre-increment
`spam_violations`. -/
theorem check_flood_action (history : UserMessageHistory) (current_time : Int)
    (r : SpamDetectionResult) (hr : check_flood history current_time = some r) :
    r.action = get_action_by_violations history.spam_violations := by
  simp only [check_flood] at hr
  split at hr
  · cases hr
    rfl
  · exact Option.noConfusion hr

/-- The duplicate heuristic stamps the action computed from the
pre-increment `spam_violations`. -/
theorem check_duplicates_action (history : UserMessageHistory)
    (message_text : String) (current_time : Int) (r : SpamDetectionResult)
    (hr : check_duplicates history message_text current_time = some r) :
    r.action = get_action_by_violations history.spam_violations := by
  simp only [check_duplicates] at hr
  split at hr
  · cases hr
    rfl
  · exact Option.noConfusion hr

/-- The similarity heuristic stamps the action computed from the
pre-increment `spam_violations`. -/
theorem check_similar_action (ratio : String → String → Rat)
    (history : UserMessageHistory) (message_text : String) (current_time : Int)
    (r : SpamDetectionResult)
    (hr : check_similar_messages ratio history message_text current_time = some r) :
    r.action = get_action_by_violations history.spam_violations := by
  simp only [check_similar_messages] at hr
  split at hr
  · cases hr
    rfl
  · exact Option.noConfusion hr

/-- The short-message heuristic stamps the action computed from the
pre-increment `spam_violations`. -/
theorem check_short_action (history : UserMessageHistory)
    (message_text : String) (current_time : Int) (r : SpamDetectionResult)
    (hr : check_short_message_spam history message_text current_time = some r) :
    r.action = get_action_by_violations history.spam_violations := by
  simp only [check_short_message_spam] at hr
  split at hr
  · exact Option.noConfusion hr
  · split at hr
    · cases hr
      rfl
    · exact Option.noConfusion hr

/-- Case analysis for `check_message` on a non-blank message: either no
heuristic fired and the normalized message was appended, or the first
firing heuristic's result was returned with the violation counter bumped —
and that result's action was computed from the pre-increment counter. -/
theorem check_message_cases (ratio : String → String → Rat)
    (history : UserMessageHistory) (message_text : String) (current_time : Int)
    (hne : ((py_strip message_text).length == 0) = false) :
    (check_message ratio history message_text current_time =
      (none,
        { history with
          messages := dequePush 20 history.messages (normalize message_text)
          timestamps := dequePush 20 history.timestamps current_time })) ∨
    (∃ r, check_message ratio history message_text current_time =
        (some r, add_violation_history history current_time) ∧
      r.action = get_action_by_violations history.spam_violations) := by
  unfold check_message
  rw [hne]
  simp only [Bool.false_eq_true, if_false]
  cases hfl : check_flood history current_time with
  | some r => exact Or.inr ⟨r, rfl, check_flood_action _ _ _ hfl⟩
  | none =>
  cases hdup : check_duplicates history message_text current_time with
  | some r => exact Or.inr ⟨r, rfl, check_duplicates_action _ _ _ _ hdup⟩
  | none =>
  cases hsim : check_similar_messages ratio history message_text current_time with
  | some r => exact Or.inr ⟨r, rfl, check_similar_action _ _ _ _ _ hsim⟩
  | none =>
  cases hsh : check_short_message_spam history message_text current_time with
  | some r => exact Or.inr ⟨r, rfl, check_short_action _ _ _ _ hsh⟩
  | none => exact Or.inl rfl

/-- A clean step of `check_message`: on a non-blank message with fewer than
`FLOOD_MESSAGES_LIMIT` recent history entries, no stored equal normalized
text, normalized length over 20, raw length over `SHORT_MESSAGE_LENGTH` and
no spam phrase, every heuristic declines and the message is appended. -/
theorem check_message_clean (ratio : String → String → Rat)
    (history : UserMessageHistory) (msg : String) (now : Int)
    (hne : ((py_strip msg).length == 0) = false)
    (hflood : history.timestamps.countP
      (fun t => decide (now - t ≤ FLOOD_TIME_WINDOW)) < FLOOD_MESSAGES_LIMIT)
    (hdup : ∀ s ∈ history.messages, ¬(s = normalize msg))
    (hlen : ¬((normalize msg).length ≤ 20))
    (hshort2 : ¬(msg.length ≤ SHORT_MESSAGE_LENGTH))
    (hpat : (SPAM_PATTERNS.any fun pat => substrOccurs (normalize msg) pat) = false) :
    check_message ratio history msg now =
      (none, { history with
        messages := dequePush 20 history.messages (normalize msg)
        timestamps := dequePush 20 history.timestamps now }) := by
  have hfl : check_flood history now = none := by
    simp only [check_flood]
    rw [if_neg (Nat.not_le.mpr hflood)]
  have hdupn : check_duplicates history msg now = none := by
    simp only [check_duplicates]
    have hz : (history.messages.zip history.timestamps).countP
        (fun p => decide (now - p.2 ≤ DUPLICATE_TIME_WINDOW) &&
          (p.1 == normalize msg)) = 0 := by
      rw [List.countP_eq_zero]
      intro p hp
      have hmem := (List.of_mem_zip hp).1
      simp [beq_eq_false_iff_ne.mpr (hdup p.1 hmem)]
    rw [hz]
    rfl
  have hsimn : check_similar_messages ratio history msg now = none := by
    simp only [check_similar_messages]
    have hz : (history.messages.zip history.timestamps).countP
        (fun p => decide (now - p.2 ≤ DUPLICATE_TIME_WINDOW) &&
          (decide (SIMILARITY_THRESHOLD ≤ ratio (normalize msg) p.1) &&
           decide ((normalize msg).length ≤ 20))) = 0 := by
      rw [List.countP_eq_zero]
      intro p _
      simp [decide_eq_false hlen]
    rw [hz]
    rfl
  have hshn : check_short_message_spam history msg now = none := by
    simp only [check_short_message_spam]
    rw [hpat, decide_eq_false hshort2]
    rfl
  unfold check_message
  rw [hne]
  simp only [Bool.false_eq_true, if_false, hfl, hdupn, hsimn, hshn]

/-- A flooding step of `check_message`: on a non-blank message with at
least `FLOOD_MESSAGES_LIMIT` recent history entries, the flood heuristic
fires first, with confidence 0.9, the action chosen from the pre-increment
violation counter, and the violation counter bumped. -/
theorem check_message_flood (ratio : String → String → Rat)
    (history : UserMessageHistory) (msg : String) (now : Int)
    (hne : ((py_strip msg).length == 0) = false)
    (hflood : FLOOD_MESSAGES_LIMIT ≤ history.timestamps.countP
      (fun t => decide (now - t ≤ FLOOD_TIME_WINDOW))) :
    check_message ratio history msg now =
      (some { is_spam := true
              spam_type := "flood"
              confidence := mkRat 9 10
              reason := "Отправлено " ++ toString (history.timestamps.countP
                  (fun t => decide (now - t ≤ FLOOD_TIME_WINDOW)))
                ++ " сообщений за " ++ toString FLOOD_TIME_WINDOW ++ " секунд"
              action := get_action_by_violations history.spam_violations },
       add_violation_history history now) := by
  have hfl : check_flood history now =
      some { is_spam := true
             spam_type := "flood"
             confidence := mkRat 9 10
             reason := "Отправлено " ++ toString (history.timestamps.countP
                 (fun t => decide (now - t ≤ FLOOD_TIME_WINDOW)))
               ++ " сообщений за " ++ toString FLOOD_TIME_WINDOW ++ " секунд"
             action := get_action_by_violations history.spam_violations } := by
    simp only [check_flood]
    rw [if_pos hflood]
  unfold check_message
  rw [hne]
  simp only [Bool.false_eq_true, if_false, hfl]

/-! ## Claim C2 -/

/-- C2, counterexample: with an initially empty history, five qualifying
messages sent 2 seconds apart (all within 10 seconds) produce no spam flag
at all — in particular the 5th is not flagged as flood, because the flood
check counts only *stored* history entries and the 5th message sees just 4
of them, below `floodLimit = 5`. -/
theorem C2_counterexample :
    (runMessages ratioZero {}
      [("this is test message number one", 0),
       ("this is test message number two", 2),
       ("this is test message number three", 4),
       ("this is test message number four", 6),
       ("this is test message number five", 8)]).1 =
      [none, none, none, none, none] := by
  decide

/-- C2, amended: with the default settings and an initially empty history,
it takes six qualifying messages inside the window for the flood rule to
fire: for any arrival times spanning at most 10 seconds, messages 1-5 are
not flagged (each sees at most 4 stored recent entries, below
`floodLimit = 5`), and the 6th is flagged as flood with confidence 0.9 and
action `"warn"` (first spam violation). -/
theorem C2_amended (ratio : String → String → Rat) (t1 t2 t3 t4 t5 t6 : Int)
    (h12 : t1 ≤ t2) (h23 : t2 ≤ t3) (h34 : t3 ≤ t4) (h45 : t4 ≤ t5)
    (h56 : t5 ≤ t6) (hwin : t6 - t1 ≤ 10) :
    (runMessages ratio {}
      [("this is test message number one", t1),
       ("this is test message number two", t2),
       ("this is test message number three", t3),
       ("this is test message number four", t4),
       ("this is test message number five", t5),
       ("this is test message number six", t6)]).1 =
      [none, none, none, none, none,
       some { is_spam := true
              spam_type := "flood"
              confidence := mkRat 9 10
              reason := "Отправлено 5 сообщений за 60 секунд"
              action := "warn" }] := by
  have hf1 : List.countP (fun t => decide (t1 - t ≤ FLOOD_TIME_WINDOW))
      [] < FLOOD_MESSAGES_LIMIT :=
    Nat.lt_of_le_of_lt (List.countP_le_length _) (by simp [FLOOD_MESSAGES_LIMIT])
  have hd1 : ∀ s ∈ [], ¬s = normalize "this is test message number one" := by decide
  have s1 : check_message ratio
      {}
      "this is test message number one" t1 =
      (none, { messages := ["this is test message number one"], timestamps := [t1] }) := by
    rw [check_message_clean ratio {}
      "this is test message number one" t1
      (by decide) hf1 hd1
      (by decide) (by decide) (by decide)]
    rfl
  have hf2 : List.countP (fun t => decide (t2 - t ≤ FLOOD_TIME_WINDOW))
      [t1] < FLOOD_MESSAGES_LIMIT :=
    Nat.lt_of_le_of_lt (List.countP_le_length _) (by simp [FLOOD_MESSAGES_LIMIT])
  have hd2 : ∀ s ∈ ["this is test message number one"], ¬s = normalize "this is test message number two" := by decide
  have s2 : check_message ratio
      { messages := ["this is test message number one"], timestamps := [t1] }
      "this is test message number two" t2 =
      (none, { messages := ["this is test message number one", "this is test message number two"], timestamps := [t1, t2] }) := by
    rw [check_message_clean ratio { messages := ["this is test message number one"], timestamps := [t1] }
      "this is test message number two" t2
      (by decide) hf2 hd2
      (by decide) (by decide) (by decide)]
    rfl
  have hf3 : List.countP (fun t => decide (t3 - t ≤ FLOOD_TIME_WINDOW))
      [t1, t2] < FLOOD_MESSAGES_LIMIT :=
    Nat.lt_of_le_of_lt (List.countP_le_length _) (by simp [FLOOD_MESSAGES_LIMIT])
  have hd3 : ∀ s ∈ ["this is test message number one", "this is test message number two"], ¬s = normalize "this is test message number three" := by decide
  have s3 : check_message ratio
      { messages := ["this is test message number one", "this is test message number two"], timestamps := [t1, t2] }
      "this is test message number three" t3 =
      (none, { messages := ["this is test message number one", "this is test message number two", "this is test message number three"], timestamps := [t1, t2, t3] }) := by
    rw [check_message_clean ratio { messages := ["this is test message number one", "this is test message number two"], timestamps := [t1, t2] }
      "this is test message number three" t3
      (by decide) hf3 hd3
      (by decide) (by decide) (by decide)]
    rfl
  have hf4 : List.countP (fun t => decide (t4 - t ≤ FLOOD_TIME_WINDOW))
      [t1, t2, t3] < FLOOD_MESSAGES_LIMIT :=
    Nat.lt_of_le_of_lt (List.countP_le_length _) (by simp [FLOOD_MESSAGES_LIMIT])
  have hd4 : ∀ s ∈ ["this is test message number one", "this is test message number two", "this is test message number three"], ¬s = normalize "this is test message number four" := by decide
  have s4 : check_message ratio
      { messages := ["this is test message number one", "this is test message number two", "this is test message number three"], timestamps := [t1, t2, t3] }
      "this is test message number four" t4 =
      (none, { messages := ["this is test message number one", "this is test message number two", "this is test message number three", "this is test message number four"], timestamps := [t1, t2, t3, t4] }) := by
    rw [check_message_clean ratio { messages := ["this is test message number one", "this is test message number two", "this is test message number three"], timestamps := [t1, t2, t3] }
      "this is test message number four" t4
      (by decide) hf4 hd4
      (by decide) (by decide) (by decide)]
    rfl
  have hf5 : List.countP (fun t => decide (t5 - t ≤ FLOOD_TIME_WINDOW))
      [t1, t2, t3, t4] < FLOOD_MESSAGES_LIMIT :=
    Nat.lt_of_le_of_lt (List.countP_le_length _) (by simp [FLOOD_MESSAGES_LIMIT])
  have hd5 : ∀ s ∈ ["this is test message number one", "this is test message number two", "this is test message number three", "this is test message number four"], ¬s = normalize "this is test message number five" := by decide
  have s5 : check_message ratio
      { messages := ["this is test message number one", "this is test message number two", "this is test message number three", "this is test message number four"], timestamps := [t1, t2, t3, t4] }
      "this is test message number five" t5 =
      (none, { messages := ["this is test message number one", "this is test message number two", "this is test message number three", "this is test message number four", "this is test message number five"], timestamps := [t1, t2, t3, t4, t5] }) := by
    rw [check_message_clean ratio { messages := ["this is test message number one", "this is test message number two", "this is test message number three", "this is test message number four"], timestamps := [t1, t2, t3, t4] }
      "this is test message number five" t5
      (by decide) hf5 hd5
      (by decide) (by decide) (by decide)]
    rfl
  have hcnt : List.countP (fun t => decide (t6 - t ≤ FLOOD_TIME_WINDOW))
      [t1, t2, t3, t4, t5] = 5 := by
    have hall : ∀ t ∈ [t1, t2, t3, t4, t5],
        (fun t => decide (t6 - t ≤ FLOOD_TIME_WINDOW)) t = true := by
      intro t ht
      simp only [List.mem_cons, List.not_mem_nil, or_false] at ht
      rcases ht with rfl | rfl | rfl | rfl | rfl <;>
        exact decide_eq_true (show t6 - t ≤ (60 : Int) from by omega)
    rw [List.countP_eq_length.mpr hall]
    rfl
  have s6 : check_message ratio
      { messages := ["this is test message number one", "this is test message number two", "this is test message number three", "this is test message number four", "this is test message number five"], timestamps := [t1, t2, t3, t4, t5] }
      "this is test message number six" t6 =
      (some { is_spam := true
              spam_type := "flood"
              confidence := mkRat 9 10
              reason := "Отправлено 5 сообщений за 60 секунд"
              action := "warn" },
       { messages := ["this is test message number one", "this is test message number two", "this is test message number three", "this is test message number four", "this is test message number five"], timestamps := [t1, t2, t3, t4, t5], spam_violations := 1, last_violation_time := t6 }) := by
    rw [check_message_flood ratio { messages := ["this is test message number one", "this is test message number two", "this is test message number three", "this is test message number four", "this is test message number five"], timestamps := [t1, t2, t3, t4, t5] }
      "this is test message number six" t6
      (by decide) hcnt.ge]
    rw [show ({ messages := ["this is test message number one", "this is test message number two", "this is test message number three", "this is test message number four", "this is test message number five"], timestamps := [t1, t2, t3, t4, t5] } :
        UserMessageHistory).timestamps.countP
        (fun t => decide (t6 - t ≤ FLOOD_TIME_WINDOW)) = 5 from hcnt]
    rfl
  simp only [runMessages, s1, s2, s3, s4, s5, s6]

/-- C2, witness for `C2_amended`: six qualifying messages at times
0, 2, 4, 6, 8, 10 — spanning exactly 10 seconds — leave messages 1-5
unflagged and flag the 6th as flood. -/
theorem C2_witness :
    ((10 : Int) - 0 ≤ 10) ∧
    (runMessages ratioZero {}
      [("this is test message number one", 0),
       ("this is test message number two", 2),
       ("this is test message number three", 4),
       ("this is test message number four", 6),
       ("this is test message number five", 8),
       ("this is test message number six", 10)]).1 =
      [none, none, none, none, none,
       some { is_spam := true
              spam_type := "flood"
              confidence := mkRat 9 10
              reason := "Отправлено 5 сообщений за 60 секунд"
              action := "warn" }] :=
  ⟨by decide,
   C2_amended ratioZero 0 2 4 6 8 10 (by decide) (by decide) (by decide)
     (by decide) (by decide) (by decide)⟩

/-! ## Claim C6 -/

/-- C6: whenever any of the four heuristics matches, the action carried by
the returned result is determined by `spam_violations` as it stood before
the increment performed for this detection: 0 → warn, 1 → mute, ≥ 2 → ban. -/
theorem C6_action_from_pre_violations (ratio : String → String → Rat)
    (history : UserMessageHistory) (message_text : String) (current_time : Int)
    (res : SpamDetectionResult)
    (hres : (check_message ratio history message_text current_time).1 = some res) :
    res.action = get_action_by_violations history.spam_violations ∧
    (history.spam_violations = 0 → res.action = "warn") ∧
    (history.spam_violations = 1 → res.action = "mute") ∧
    (2 ≤ history.spam_violations → res.action = "ban") := by
  have hne : ((py_strip message_text).length == 0) = false := by
    cases hg : ((py_strip message_text).length == 0) with
    | false => rfl
    | true =>
      exfalso
      unfold check_message at hres
      rw [hg] at hres
      simp at hres
  have hact : res.action = get_action_by_violations history.spam_violations := by
    rcases check_message_cases ratio history message_text current_time hne with
      hc | ⟨r, hc, hact⟩
    · rw [hc] at hres
      simp at hres
    · rw [hc] at hres
      simp only [Option.some.injEq] at hres
      rw [← hres]
      exact hact
  refine ⟨hact, ?_, ?_, ?_⟩
  · intro h0
    rw [hact, h0]
    rfl
  · intro h1
    rw [hact, h1]
    rfl
  · intro h2
    rw [hact]
    unfold get_action_by_violations
    have h0 : (history.spam_violations == 0) = false := by
      simp only [beq_eq_false_iff_ne]
      omega
    have h1 : (history.spam_violations == 1) = false := by
      simp only [beq_eq_false_iff_ne]
      omega
    rw [h0, h1]
    rfl

/-- C6, witness for `C6_action_from_pre_violations`: a flooding user whose
`spam_violations` counter already stands at 1 gets a result whose action is
`"mute"`. -/
theorem C6_witness :
    (check_message ratioZero
        { messages := ["a", "b", "c", "d", "e"], timestamps := [0, 1, 2, 3, 4],
          spam_violations := 1 }
        "completely new message here" 10).1 =
      some { is_spam := true, spam_type := "flood", confidence := mkRat 9 10,
             reason := "Отправлено 5 сообщений за 60 секунд", action := "mute" } ∧
    (1 : Nat) = 1 ∧
    ({ is_spam := true, spam_type := "flood", confidence := mkRat 9 10,
       reason := "Отправлено 5 сообщений за 60 секунд",
       action := "mute" } : SpamDetectionResult).action = "mute" := by
  have h1 : (check_message ratioZero
      { messages := ["a", "b", "c", "d", "e"], timestamps := [0, 1, 2, 3, 4],
        spam_violations := 1 }
      "completely new message here" 10).1 =
      some { is_spam := true, spam_type := "flood", confidence := mkRat 9 10,
             reason := "Отправлено 5 сообщений за 60 секунд", action := "mute" } := by
    decide
  exact ⟨h1, rfl,
    (C6_action_from_pre_violations ratioZero _ "completely new message here" 10 _
      h1).2.2.1 rfl⟩

/-! ## Claim C5 -/

/-- C5, counterexample: the one-space message is non-empty, `check_message`
returns `none` for it, and yet nothing is appended to the history — the
claim promised that every none-result on a non-empty message appends the
normalized text and its timestamp. -/
theorem C5_counterexample :
    (" " : String).length ≠ 0 ∧
    (check_message ratioZero {} " " 5).1 = none ∧
    (check_message ratioZero {} " " 5).2 = ({} : UserMessageHistory) ∧
    ({} : UserMessageHistory).timestamps ≠ [(5 : Int)] := by
  decide

/-- C5, amended: for every message that is non-empty after stripping
whitespace — not merely non-empty — a spam result leaves the stored
history/timestamps unchanged and bumps `spam_violations` by exactly one,
while a none-result appends the normalized message and its timestamp
(evicting the oldest entry at capacity 20) and leaves `spam_violations`
unchanged. -/
theorem C5_amended (ratio : String → String → Rat)
    (history : UserMessageHistory) (message_text : String) (current_time : Int)
    (hne : (py_strip message_text).length ≠ 0) :
    (∀ res, (check_message ratio history message_text current_time).1 = some res →
        (check_message ratio history message_text current_time).2.messages =
          history.messages ∧
        (check_message ratio history message_text current_time).2.timestamps =
          history.timestamps ∧
        (check_message ratio history message_text current_time).2.spam_violations =
          history.spam_violations + 1) ∧
    ((check_message ratio history message_text current_time).1 = none →
        (check_message ratio history message_text current_time).2.messages =
          dequePush 20 history.messages (normalize message_text) ∧
        (check_message ratio history message_text current_time).2.timestamps =
          dequePush 20 history.timestamps current_time ∧
        (check_message ratio history message_text current_time).2.spam_violations =
          history.spam_violations) := by
  have hne' : ((py_strip message_text).length == 0) = false :=
    beq_eq_false_iff_ne.mpr hne
  rcases check_message_cases ratio history message_text current_time hne' with
    hc | ⟨r, hc, _⟩
  · constructor
    · intro res hres
      rw [hc] at hres
      simp at hres
    · intro _
      rw [hc]
      exact ⟨rfl, rfl, rfl⟩
  · constructor
    · intro res _
      rw [hc]
      exact ⟨rfl, rfl, rfl⟩
    · intro hnone
      rw [hc] at hnone
      simp at hnone

/-- C5, witness for `C5_amended`: a clean message on an empty history gets
appended together with its timestamp. -/
theorem C5_witness :
    (py_strip "good long message example").length ≠ 0 ∧
    (check_message ratioZero {} "good long message example" 0).2.messages =
      dequePush 20 [] (normalize "good long message example") ∧
    (check_message ratioZero {} "good long message example" 0).2.timestamps =
      dequePush 20 [] (0 : Int) :=
  ⟨by decide,
   ((C5_amended ratioZero {} "good long message example" 0 (by decide)).2
     (by decide)).1,
   ((C5_amended ratioZero {} "good long message example" 0 (by decide)).2
     (by decide)).2.1⟩

/-- Key-preserving row updates commute with user lookup, `Option.map`
version (no existence hypothesis). -/
theorem get_user_update_map (db : DB) (uid : Int) (f : DBUser → DBUser)
    (hf : ∀ v, (f v).user_id = v.user_id) :
    get_user (update_user db uid f) uid = (get_user db uid).map f := by
  unfold get_user update_user
  rw [List.find?_map]
  have hcomp : ((fun v : DBUser => v.user_id == uid) ∘
      (fun v => if v.user_id == uid then f v else v)) =
      (fun v : DBUser => v.user_id == uid) := by
    funext v
    simp only [Function.comp_apply]
    by_cases h : (v.user_id == uid) = true
    · rw [if_pos h, hf v]
    · rw [if_neg h]
  rw [hcomp]
  cases hfind : db.users.find? (fun v => v.user_id == uid) with
  | none => rfl
  | some u =>
    have hp := List.find?_some hfind
    show some (if (u.user_id == uid) = true then f u else u) = some (f u)
    rw [if_pos hp]

/-- The ban query never touches the appeals table. -/
theorem is_user_banned_appeals (db : DB) (uid : Int) (now : Int) :
    (is_user_banned db uid now).2.appeals = db.appeals := by
  cases hu : get_user db uid with
  | none =>
    have h : is_user_banned db uid now = (false, db) := by
      unfold is_user_banned
      rw [hu]
    rw [h]
  | some u =>
    cases hb : u.is_banned with
    | false =>
      have h : is_user_banned db uid now = (false, db) := by
        unfold is_user_banned
        simp [hu, hb]
      rw [h]
    | true =>
      cases hbu : u.ban_until with
      | none =>
        have h : is_user_banned db uid now = (true, db) := by
          unfold is_user_banned
          simp [hu, hb, hbu]
        rw [h]
      | some t =>
        by_cases ht : t ≤ now
        · have h : is_user_banned db uid now = (false, unban_user db uid) := by
            unfold is_user_banned
            simp [hu, hb, hbu, ht]
          rw [h]
          rfl
        · have h : is_user_banned db uid now = (true, db) := by
            unfold is_user_banned
            simp [hu, hb, hbu, ht]
          rw [h]

/-! ## Claim C7 -/

/-- C7, counterexample: for a user whose finite ban has already expired,
filing an appeal fails with not-banned, yet the store *does* change — the
ban-status check performs the implicit expiry unban on this failing path,
contradicting "in every failure case ... no state changes". -/
theorem C7_counterexample :
    (get_user { users := [{ user_id := 7, is_banned := true, ban_until := some 5 }] }
      7).map DBUser.is_banned = some true ∧
    (cmd_appeal { users := [{ user_id := 7, is_banned := true, ban_until := some 5 }] }
      7 ["this", "is", "a", "valid", "appeal"] 10).1 = .not_banned ∧
    (cmd_appeal { users := [{ user_id := 7, is_banned := true, ban_until := some 5 }] }
      7 ["this", "is", "a", "valid", "appeal"] 10).2 ≠
      { users := [{ user_id := 7, is_banned := true, ban_until := some 5 }] } := by
  decide

/-- C7, amended: filing fails when the user is not currently banned (where
the only state change is the ban query's implicit expiry unban), and fails
with no state change at all when the arguments are missing, the text is
shorter than 10 or longer than 1000 characters, or a pending appeal already
exists; texts of length exactly 10 or 1000 are accepted. On success the id
`next_appeal_id` is returned and exactly one pending appeal row is
appended, preserving the at-most-one-pending-per-user invariant. -/
theorem C7_amended (db : DB) (uid : Int) (args : List String) (now : Int)
    (hid : 1 ≤ db.next_appeal_id) :
    ((cmd_appeal db uid args now).1 = .not_banned →
        (is_user_banned db uid now).1 = false ∧
        (cmd_appeal db uid args now).2 = (is_user_banned db uid now).2) ∧
    (((cmd_appeal db uid args now).1 = .usage ∨
      (cmd_appeal db uid args now).1 = .too_short ∨
      (cmd_appeal db uid args now).1 = .too_long ∨
      (cmd_appeal db uid args now).1 = .already_pending) →
        (cmd_appeal db uid args now).2 = db) ∧
    (∀ aid, (cmd_appeal db uid args now).1 = .accepted aid →
        aid = (db.next_appeal_id : Int) ∧
        10 ≤ (py_join args).length ∧ (py_join args).length ≤ 1000 ∧
        (db.appeals.any fun a => a.user_id == uid && a.status == "pending") = false ∧
        (cmd_appeal db uid args now).2.appeals =
          db.appeals ++ [{ id := db.next_appeal_id, user_id := uid,
                           appeal_text := py_join args }] ∧
        (cmd_appeal db uid args now).2.users = db.users) ∧
    ((is_user_banned db uid now).1 = true → 1 ≤ args.length →
      10 ≤ (py_join args).length → (py_join args).length ≤ 1000 →
      (db.appeals.any fun a => a.user_id == uid && a.status == "pending") = false →
        (cmd_appeal db uid args now).1 = .accepted ((db.next_appeal_id : Int))) ∧
    (atMostOnePending db → atMostOnePending (cmd_appeal db uid args now).2) := by
  rcases hbr : is_user_banned db uid now with ⟨b, db1⟩
  have happ : db1.appeals = db.appeals := by
    have h := is_user_banned_appeals db uid now
    rw [hbr] at h
    exact h
  cases b with
  | false =>
    have hcmd : cmd_appeal db uid args now = (.not_banned, db1) := by
      unfold cmd_appeal
      rw [hbr]
      rfl
    rw [hcmd]
    refine ⟨?_, ?_, ?_, ?_, ?_⟩
    · intro _
      exact ⟨rfl, rfl⟩
    · rintro (h | h | h | h) <;> exact AppealCmdResult.noConfusion h
    · intro aid h
      exact AppealCmdResult.noConfusion h
    · intro hb
      simp at hb
    · intro h
      unfold atMostOnePending at h ⊢
      intro uid2
      have h2 := h uid2
      rw [← happ] at h2
      exact h2
  | true =>
    have hdb1 : db = db1 := by
      have h := is_user_banned_true_frame db uid now (by rw [hbr])
      rw [hbr] at h
      exact h.symm
    subst hdb1
    by_cases hlen : args.length < 1
    · have hcmd : cmd_appeal db uid args now = (.usage, db) := by
        unfold cmd_appeal
        rw [hbr]
        simp [hlen]
      rw [hcmd]
      refine ⟨?_, ?_, ?_, ?_, ?_⟩
      · intro h
        exact AppealCmdResult.noConfusion h
      · intro _
        rfl
      · intro aid h
        exact AppealCmdResult.noConfusion h
      · intro _ hge _ _ _
        omega
      · intro h
        exact h
    · by_cases hshort : (py_join args).length < 10
      · have hcmd : cmd_appeal db uid args now = (.too_short, db) := by
          unfold cmd_appeal
          rw [hbr]
          simp [hlen, hshort]
        rw [hcmd]
        refine ⟨?_, ?_, ?_, ?_, ?_⟩
        · intro h
          exact AppealCmdResult.noConfusion h
        · intro _
          rfl
        · intro aid h
          exact AppealCmdResult.noConfusion h
        · intro _ _ h10 _ _
          omega
        · intro h
          exact h
      · by_cases hlong : 1000 < (py_join args).length
        · have hcmd : cmd_appeal db uid args now = (.too_long, db) := by
            unfold cmd_appeal
            rw [hbr]
            simp [hlen, hshort, hlong]
          rw [hcmd]
          refine ⟨?_, ?_, ?_, ?_, ?_⟩
          · intro h
            exact AppealCmdResult.noConfusion h
          · intro _
            rfl
          · intro aid h
            exact AppealCmdResult.noConfusion h
          · intro _ _ _ h1000 _
            omega
          · intro h
            exact h
        · cases hpend : (db.appeals.any fun a =>
              a.user_id == uid && a.status == "pending") with
          | true =>
            have hcmd : cmd_appeal db uid args now = (.already_pending, db) := by
              unfold cmd_appeal add_appeal
              rw [hbr]
              simp [hlen, hshort, hlong, hpend]
            rw [hcmd]
            refine ⟨?_, ?_, ?_, ?_, ?_⟩
            · intro h
              exact AppealCmdResult.noConfusion h
            · intro _
              rfl
            · intro aid h
              exact AppealCmdResult.noConfusion h
            · intro _ _ _ _ hp
              exact Bool.noConfusion hp
            · intro h
              exact h
          | false =>
            have hne1 : ((db.next_appeal_id : Int) == (-1 : Int)) = false := by
              cases hh : ((db.next_appeal_id : Int) == (-1 : Int)) with
              | false => rfl
              | true =>
                have hcontra := eq_of_beq hh
                exact absurd hcontra (by omega)
            have hne0 : ((db.next_appeal_id : Int) == (0 : Int)) = false := by
              cases hh : ((db.next_appeal_id : Int) == (0 : Int)) with
              | false => rfl
              | true =>
                have hcontra := eq_of_beq hh
                exact absurd hcontra (by omega)
            have hcmd : cmd_appeal db uid args now =
                (.accepted ((db.next_appeal_id : Int)),
                 { db with
                   appeals := db.appeals ++
                     [{ id := db.next_appeal_id, user_id := uid,
                        appeal_text := py_join args }]
                   next_appeal_id := db.next_appeal_id + 1 }) := by
              unfold cmd_appeal add_appeal
              rw [hbr]
              simp [hlen, hshort, hlong, hpend, hne1, hne0]
            rw [hcmd]
            refine ⟨?_, ?_, ?_, ?_, ?_⟩
            · intro h
              exact AppealCmdResult.noConfusion h
            · rintro (h | h | h | h) <;> exact AppealCmdResult.noConfusion h
            · intro aid h
              cases h
              exact ⟨rfl, by omega, by omega, rfl, rfl, rfl⟩
            · intro _ _ _ _ _
              rfl
            · intro h
              unfold atMostOnePending at h ⊢
              intro uid2
              by_cases heq : uid = uid2
              · subst heq
                have hnil : db.appeals.filter
                    (fun a => a.user_id == uid && a.status == "pending") = [] := by
                  rw [List.filter_eq_nil_iff]
                  exact List.any_eq_false.mp hpend
                show ((db.appeals ++ _).filter _).length ≤ 1
                rw [List.filter_append, hnil]
                simp
              · have hA : ((fun a : Appeal => a.user_id == uid2 &&
                    a.status == "pending")
                    { id := db.next_appeal_id, user_id := uid,
                      appeal_text := py_join args }) = false := by
                  have hne : (uid == uid2) = false := beq_eq_false_iff_ne.mpr heq
                  simp [hne]
                show ((db.appeals ++ _).filter _).length ≤ 1
                rw [List.filter_append]
                simp only [List.filter, hA]
                simp only [List.length_append]
                have h2 := h uid2
                simp [h2]

/-- C7, witness for `C7_amended`: a currently banned user filing a 22
character appeal with no pending appeal on file gets id 1. -/
theorem C7_witness :
    1 ≤ ({ users := [{ user_id := 7, is_banned := true, ban_until := some 900 }] } :
      DB).next_appeal_id ∧
    (cmd_appeal { users := [{ user_id := 7, is_banned := true, ban_until := some 900 }] }
      7 ["this", "is", "a", "valid", "appeal"] 3).1 = .accepted 1 :=
  ⟨by decide,
   (C7_amended { users := [{ user_id := 7, is_banned := true, ban_until := some 900 }] }
      7 ["this", "is", "a", "valid", "appeal"] 3 (by decide)).2.2.2.1
     (by decide) (by decide) (by decide) (by decide) (by decide)⟩

/-! ## Claim C8 -/

/-- C8: for a pending appeal, the accept-request step returns a
confirmation prompt and leaves the store identical; the confirm step marks
the appeal approved and unbans the appeal's user (clearing both ban
fields); a second confirm on the same appeal reports
not-found-or-already-resolved and changes nothing. -/
theorem C8_two_step_accept (db : DB) (aid : Nat) (admin : Int) (a : Appeal)
    (ha : get_appeal_by_id db aid = some a) (hp : a.status = "pending") :
    cmd_accept_appeal db aid = (.confirmation_prompt aid, db) ∧
    (cmd_confirm_accept db aid admin).1 = .accepted_unbanned ∧
    get_appeal_by_id (cmd_confirm_accept db aid admin).2 aid =
      some { a with status := "approved", admin_id := some admin,
                    admin_response := some "Обжалование принято" } ∧
    get_user (cmd_confirm_accept db aid admin).2 a.user_id =
      (get_user db a.user_id).map
        (fun u => { u with is_banned := false, ban_until := none }) ∧
    cmd_confirm_accept (cmd_confirm_accept db aid admin).2 aid admin =
      (.not_found_or_resolved, (cmd_confirm_accept db aid admin).2) := by
  have hpb : (a.status != "pending") = false := by
    rw [hp]
    rfl
  have ha' : db.appeals.find? (fun v => v.id == aid) = some a := ha
  have hsucc : (db.appeals.any fun v => v.id == aid) = true := by
    refine List.any_eq_true.mpr ⟨a, ?_, ?_⟩
    · exact List.mem_of_find?_eq_some ha'
    · have hx := List.find?_some ha'
      simpa using hx
  have hconf : cmd_confirm_accept db aid admin =
      (.accepted_unbanned,
        unban_user (update_appeal_status db aid "approved" admin
          (some "Обжалование принято")).2 a.user_id) := by
    unfold cmd_confirm_accept
    rw [ha]
    simp only [hpb, Bool.false_eq_true, if_false, update_appeal_status, hsucc,
      if_true]
  have hga2 : get_appeal_by_id (cmd_confirm_accept db aid admin).2 aid =
      some { a with status := "approved", admin_id := some admin,
                    admin_response := some "Обжалование принято" } := by
    rw [hconf]
    exact get_appeal_update db aid
      (fun v => { v with status := "approved", admin_id := some admin,
                         admin_response := some "Обжалование принято" })
      (fun v => rfl) a ha
  refine ⟨?_, by rw [hconf], hga2, ?_, ?_⟩
  · unfold cmd_accept_appeal
    rw [ha]
    simp only [hpb, Bool.false_eq_true, if_false]
  · rw [hconf]
    exact get_user_update_map _ a.user_id
      (fun u => { u with is_banned := false, ban_until := none }) (fun v => rfl)
  · generalize hgen : (cmd_confirm_accept db aid admin).2 = S at hga2 ⊢
    unfold cmd_confirm_accept
    rw [hga2]
    rfl

/-- C8, witness for `C8_two_step_accept` on a concrete store: appeal 1 of
banned user 7, accepted by admin 99; the request step leaves the store
unchanged, the confirm step unbans, and a second confirm is rejected. -/
theorem C8_witness :
    cmd_accept_appeal
        { users := [{ user_id := 7, is_banned := true, ban_until := some 900 }],
          appeals := [{ id := 1, user_id := 7, appeal_text := "please unban me" }],
          next_appeal_id := 2 } 1 =
      (.confirmation_prompt 1,
        { users := [{ user_id := 7, is_banned := true, ban_until := some 900 }],
          appeals := [{ id := 1, user_id := 7, appeal_text := "please unban me" }],
          next_appeal_id := 2 }) ∧
    (cmd_confirm_accept
        { users := [{ user_id := 7, is_banned := true, ban_until := some 900 }],
          appeals := [{ id := 1, user_id := 7, appeal_text := "please unban me" }],
          next_appeal_id := 2 } 1 99).1 = .accepted_unbanned ∧
    cmd_confirm_accept
        (cmd_confirm_accept
          { users := [{ user_id := 7, is_banned := true, ban_until := some 900 }],
            appeals := [{ id := 1, user_id := 7, appeal_text := "please unban me" }],
            next_appeal_id := 2 } 1 99).2 1 99 =
      (.not_found_or_resolved,
        (cmd_confirm_accept
          { users := [{ user_id := 7, is_banned := true, ban_until := some 900 }],
            appeals := [{ id := 1, user_id := 7, appeal_text := "please unban me" }],
            next_appeal_id := 2 } 1 99).2) := by
  have h := C8_two_step_accept
    { users := [{ user_id := 7, is_banned := true, ban_until := some 900 }],
      appeals := [{ id := 1, user_id := 7, appeal_text := "please unban me" }],
      next_appeal_id := 2 } 1 99
    { id := 1, user_id := 7, appeal_text := "please unban me" } rfl rfl
  exact ⟨h.1, h.2.1, h.2.2.2.2⟩

/-! ## Claim C4 -/

/-- C4, counterexample: with the classifier significance threshold
configured at 0.5, a significant violation of confidence 0.8 (below 0.9)
whose recommended action is `"ban"`, for a user with 0 warnings (below
`warningThreshold - 1 = 2`), is passed through as `"ban"` by
`get_recommended_action` — not downgraded to `"warn"` as the claim says. -/
theorem C4_counterexample :
    is_violation_significant { OPENAI_ANALYSIS_THRESHOLD := mkRat 1 2 }
      { violation := true, confidence := mkRat 4 5, action := "ban" } = true ∧
    mkRat 4 5 < mkRat 9 10 ∧
    (0 : Nat) < ({ OPENAI_ANALYSIS_THRESHOLD := mkRat 1 2 } :
      BotConfigM).WARNING_THRESHOLD - 1 ∧
    get_recommended_action { OPENAI_ANALYSIS_THRESHOLD := mkRat 1 2 }
      { violation := true, confidence := mkRat 4 5, action := "ban" } 0 = "ban" ∧
    ("ban" : String) ≠ "warn" := by
  decide

/-- C4, amended: for a significant result with confidence below 0.9 and a
user with fewer than `warningThreshold - 1` warnings, the recommendation is
`"warn"` only when the classifier asked for `"warn"` or `"delete"`;
otherwise the classifier's own action (`"mute"`, `"ban"`, even `"none"`) is
passed through unchanged. -/
theorem C4_amended (cfg : BotConfigM) (analysis : AnalysisResult) (w : Nat)
    (hsig : is_violation_significant cfg analysis = true)
    (hconf : analysis.confidence < mkRat 9 10)
    (hw : w < cfg.WARNING_THRESHOLD - 1) :
    get_recommended_action cfg analysis w =
      (if analysis.action == "warn" || analysis.action == "delete" then "warn"
       else analysis.action) := by
  unfold get_recommended_action
  rw [hsig]
  have h9 : (decide (mkRat 9 10 ≤ analysis.confidence)) = false := by
    simp only [decide_eq_false_iff_not]
    exact not_le.mpr hconf
  rw [h9]
  have hwt : ¬(cfg.WARNING_THRESHOLD ≤ w) := by omega
  have hwt1 : ¬(cfg.WARNING_THRESHOLD - 1 ≤ w) := by omega
  simp only [Bool.not_true, Bool.false_and, Bool.false_eq_true, if_false,
    if_neg hwt, if_neg hwt1]

/-- C4, witness for `C4_amended`: a significant confidence-0.8 `"mute"`
recommendation for a 0-warning user under threshold 0.5 comes back as
`"mute"`. -/
theorem C4_witness :
    is_violation_significant { OPENAI_ANALYSIS_THRESHOLD := mkRat 1 2 }
      { violation := true, confidence := mkRat 4 5, action := "mute" } = true ∧
    mkRat 4 5 < mkRat 9 10 ∧
    (0 : Nat) < ({ OPENAI_ANALYSIS_THRESHOLD := mkRat 1 2 } :
      BotConfigM).WARNING_THRESHOLD - 1 ∧
    get_recommended_action { OPENAI_ANALYSIS_THRESHOLD := mkRat 1 2 }
      { violation := true, confidence := mkRat 4 5, action := "mute" } 0 =
      "mute" := by
  refine ⟨by decide, by decide, by decide, ?_⟩
  have h := C4_amended { OPENAI_ANALYSIS_THRESHOLD := mkRat 1 2 }
    { violation := true, confidence := mkRat 4 5, action := "mute" } 0
    (by decide) (by decide) (by decide)
  rw [h]
  rfl

/-! ## Claim C3 -/

/-- C3, counterexample: under the default configuration
(`AUTO_BAN_ON_BANNED_WORDS = true`), a banned-word violation by a user with
0 warnings immediately bans: the only notification is `"banned"`, the
warnings counter stays at 0 (it is not incremented to 1), and no warn is
issued — contradicting the claim's "results in a warn, not a ban". The
antispam state (carrying `spam_violations = 2`) passes through untouched. -/
theorem C3_counterexample :
    bot_config.AUTO_BAN_ON_BANNED_WORDS = true ∧
    (handle_banned_words_violation bot_config { users := [{ user_id := 7 }] }
        { spam_violations := 2 } 7 100 "плохое слово" 50).map
      (fun r => (r.1.map Prod.fst, (get_user r.2.1 7).map DBUser.warnings_count,
        (get_user r.2.1 7).map DBUser.is_banned, r.2.2.spam_violations)) =
      some (["banned"], some 0, some true, 2) ∧
    (["banned"] : List String) ≠ ["warned"] := by
  decide

/-- C3, amended: the warnings-ladder outcome the claim describes (warnings
0 → 1, 1 < 3, hence a warn and no ban) holds only when
`AUTO_BAN_ON_BANNED_WORDS` is disabled; under the default configuration
(flag enabled) the user is banned outright and the warnings counter is not
touched. In both branches the antispam `spam_violations` state is neither
read nor changed — the handler returns it untouched. -/
theorem C3_amended (cfg : BotConfigM) (db : DB) (spam_state : UserMessageHistory)
    (uid mid : Int) (text : String) (now : Int) (u : DBUser)
    (hu : get_user db uid = some u) (hw : u.warnings_count = 0)
    (hthr : cfg.WARNING_THRESHOLD = 3) :
    (cfg.AUTO_BAN_ON_BANNED_WORDS = false →
      (handle_banned_words_violation cfg db spam_state uid mid text now).map
        (fun r => (r.1, (get_user r.2.1 uid).map DBUser.warnings_count,
          (get_user r.2.1 uid).map DBUser.is_banned, r.2.2)) =
      some ([("warned", "Предупреждение 1")], some 1, some u.is_banned,
        spam_state)) ∧
    (cfg.AUTO_BAN_ON_BANNED_WORDS = true →
      (handle_banned_words_violation cfg db spam_state uid mid text now).map
        (fun r => (r.1, (get_user r.2.1 uid).map DBUser.warnings_count,
          (get_user r.2.1 uid).map DBUser.is_banned, r.2.2)) =
      some ([("banned", "Использование запрещенной лексики")], some 0,
        some true, spam_state)) := by
  have hu1 : get_user (add_violation db uid mid "bad_language" (py_take text 500)
      "delete" none) uid = some u := hu
  constructor
  · intro hflag
    have hw1 : get_user (update_user (add_violation db uid mid "bad_language"
        (py_take text 500) "delete" none) uid
        (fun v => { v with warnings_count := v.warnings_count + 1 })) uid =
        some { u with warnings_count := u.warnings_count + 1 } :=
      get_user_update _ uid (fun v => { v with warnings_count := v.warnings_count + 1 })
        (fun v => rfl) u hu1
    unfold handle_banned_words_violation add_warning
    rw [hflag]
    simp only [Bool.false_eq_true, if_false]
    rw [hu1]
    have hlt : ¬(cfg.WARNING_THRESHOLD ≤ u.warnings_count + 1) := by omega
    simp only [if_neg hlt]
    simp [hw1, hw]
    decide
  · intro hflag
    have hb1 : get_user (ban_user (add_violation db uid mid "bad_language"
        (py_take text 500) "delete" none) uid (some cfg.BAN_DURATION_MINUTES) now)
        uid = some { u with
          is_banned := true
          ban_until := (if cfg.BAN_DURATION_MINUTES == 0 then none
            else some (now + cfg.BAN_DURATION_MINUTES * 60)) } := by
      unfold ban_user
      exact get_user_update _ uid
        (fun v => { v with
          is_banned := true
          ban_until := (if cfg.BAN_DURATION_MINUTES == 0 then none
            else some (now + cfg.BAN_DURATION_MINUTES * 60)) })
        (fun v => rfl) u hu1
    unfold handle_banned_words_violation
    rw [hflag]
    simp only [if_true]
    simp [hb1, hw]

/-- C3, witness for `C3_amended`: with the flag disabled a 0-warning user
gets warned (warnings become 1, ban flag untouched); with the default
configuration the same user is banned with warnings still 0. -/
theorem C3_witness :
    (handle_banned_words_violation { AUTO_BAN_ON_BANNED_WORDS := false }
        { users := [{ user_id := 7 }] } { spam_violations := 2 } 7 100
        "плохое слово" 50).map
      (fun r => (r.1, (get_user r.2.1 7).map DBUser.warnings_count,
        (get_user r.2.1 7).map DBUser.is_banned, r.2.2)) =
      some ([("warned", "Предупреждение 1")], some 1, some false,
        { spam_violations := 2 }) ∧
    (handle_banned_words_violation bot_config
        { users := [{ user_id := 7 }] } { spam_violations := 2 } 7 100
        "плохое слово" 50).map
      (fun r => (r.1, (get_user r.2.1 7).map DBUser.warnings_count,
        (get_user r.2.1 7).map DBUser.is_banned, r.2.2)) =
      some ([("banned", "Использование запрещенной лексики")], some 0,
        some true, { spam_violations := 2 }) :=
  ⟨(C3_amended { AUTO_BAN_ON_BANNED_WORDS := false } { users := [{ user_id := 7 }] }
      { spam_violations := 2 } 7 100 "плохое слово" 50 { user_id := 7 }
      rfl rfl rfl).1 rfl,
   (C3_amended bot_config { users := [{ user_id := 7 }] }
      { spam_violations := 2 } 7 100 "плохое слово" 50 { user_id := 7 }
      rfl rfl rfl).2 rfl⟩

/-! ## Claim C1 -/

/-- C1, counterexample: a user whose `joined_chat_at` lies 3 whole days in
the past, with 10 messages and 1 link violation, meets both trust
thresholds, yet `calculate_trust_level` answers `"trusted"` — not
`"suspicious"` as the claim demands: the trusted branch is evaluated first
and a positive link-violation count does not override it. -/
theorem C1_counterexample :
    let db : DB := { users := [{ user_id := 7, joined_chat_at := some 0,
                                 messages_count := 10, link_violations_count := 1 }] }
    TRUST_DAYS_THRESHOLD ≤ ((259200 : Int) - 0).fdiv 86400 ∧
    TRUST_MESSAGES_THRESHOLD ≤ 10 ∧
    calculate_trust_level db 7 259200 = "trusted" ∧
    calculate_trust_level db 7 259200 ≠ "suspicious" := by
  decide

/-- C1, amended: for a user with a recorded `joined_chat_at`, meeting both
the tenure threshold (`daysInChat ≥ 3`) and the volume threshold
(`messageCount ≥ 10`) yields `"trusted"` regardless of `linkViolations`; a
positive `linkViolations` count yields `"suspicious"` only when the
trusted condition fails. -/
theorem C1_amended (db : DB) (uid : Int) (now : Int) (u : DBUser) (j : Int)
    (hu : get_user db uid = some u) (hj : u.joined_chat_at = some j) :
    (TRUST_DAYS_THRESHOLD ≤ (now - j).fdiv 86400 ∧
       TRUST_MESSAGES_THRESHOLD ≤ u.messages_count →
       calculate_trust_level db uid now = "trusted") ∧
    (0 < u.link_violations_count ∧
       ¬(TRUST_DAYS_THRESHOLD ≤ (now - j).fdiv 86400 ∧
         TRUST_MESSAGES_THRESHOLD ≤ u.messages_count) →
       calculate_trust_level db uid now = "suspicious") := by
  unfold calculate_trust_level
  simp only [hu, hj]
  constructor
  · intro h
    rw [if_pos h]
  · intro h
    rw [if_neg h.2, if_pos h.1]

/-- C1, witness for `C1_amended`: a tenured, vocal user with one link
violation is `"trusted"`, and a 1-day-old user with a link violation is
`"suspicious"`. -/
theorem C1_witness :
    calculate_trust_level
      { users := [{ user_id := 7, joined_chat_at := some 0,
                    messages_count := 10, link_violations_count := 1 }] } 7 259200
      = "trusted" ∧
    calculate_trust_level
      { users := [{ user_id := 8, joined_chat_at := some 0,
                    messages_count := 10, link_violations_count := 1 }] } 8 86400
      = "suspicious" := by
  constructor
  · exact (C1_amended
      { users := [{ user_id := 7, joined_chat_at := some 0,
                    messages_count := 10, link_violations_count := 1 }] } 7 259200
      { user_id := 7, joined_chat_at := some 0,
        messages_count := 10, link_violations_count := 1 } 0
      (by decide) rfl).1 (by decide)
  · exact (C1_amended
      { users := [{ user_id := 8, joined_chat_at := some 0,
                    messages_count := 10, link_violations_count := 1 }] } 8 86400
      { user_id := 8, joined_chat_at := some 0,
        messages_count := 10, link_violations_count := 1 } 0
      (by decide) rfl).2 (by decide)

/-! ## Claim C9 -/

/-- C9: for a user banned with a finite duration, once `ban_until ≤ now` the
`is_user_banned` query answers `false` and implicitly clears both ban
fields; any later query answers `false` again and leaves the store
untouched — the auto-unban is idempotent. -/
theorem C9_ban_expiry_idempotent (db : DB) (uid : Int) (now now2 : Int)
    (u : DBUser) (t : Int) (hu : get_user db uid = some u)
    (hb : u.is_banned = true) (hbu : u.ban_until = some t) (ht : t ≤ now) :
    (is_user_banned db uid now).1 = false ∧
    get_user (is_user_banned db uid now).2 uid =
      some { u with is_banned := false, ban_until := none } ∧
    is_user_banned (is_user_banned db uid now).2 uid now2 =
      (false, (is_user_banned db uid now).2) := by
  have h1 : is_user_banned db uid now = (false, unban_user db uid) := by
    unfold is_user_banned
    simp [hu, hb, hbu, ht]
  have h2 : get_user (unban_user db uid) uid =
      some { u with is_banned := false, ban_until := none } := by
    unfold unban_user
    exact get_user_update db uid
      (fun v => { v with is_banned := false, ban_until := none })
      (fun v => rfl) u hu
  refine ⟨by rw [h1], by rw [h1]; exact h2, ?_⟩
  rw [h1]
  unfold is_user_banned
  rw [h2]
  simp

/-- C9, witness for `C9_ban_expiry_idempotent` at a concrete store: user 7
banned until time 5, queried at time 10 and re-queried at time 11. -/
theorem C9_witness :
    (is_user_banned { users := [{ user_id := 7, is_banned := true,
                                  ban_until := some 5 }] } 7 10).1 = false ∧
    is_user_banned (is_user_banned
        { users := [{ user_id := 7, is_banned := true,
                      ban_until := some 5 }] } 7 10).2 7 11 =
      (false, (is_user_banned { users := [{ user_id := 7, is_banned := true,
                                            ban_until := some 5 }] } 7 10).2) := by
  have h := C9_ban_expiry_idempotent
    { users := [{ user_id := 7, is_banned := true, ban_until := some 5 }] }
    7 10 11 { user_id := 7, is_banned := true, ban_until := some 5 } 5
    rfl rfl rfl (by decide)
  exact ⟨h.1, h.2.2⟩

/-! ## Claim C10 -/

/-- C10: a message that is empty or whitespace-only (its trimmed text has
length 0) short-circuits `check_message` before any heuristic runs: the
result is `none` and the user's history, timestamps and `spam_violations`
are returned exactly as they were. -/
theorem C10_whitespace_noop (ratio : String → String → Rat)
    (history : UserMessageHistory) (message_text : String) (current_time : Int)
    (h : (py_strip message_text).length = 0) :
    check_message ratio history message_text current_time = (none, history) := by
  unfold check_message
  rw [h]
  rfl

/-- C10, witness for `C10_whitespace_noop`: three spaces at time 3 leave an
arbitrary concrete history unchanged. -/
theorem C10_witness :
    (py_strip "   ").length = 0 ∧
    check_message ratioZero
      { messages := ["привет"], timestamps := [1], spam_violations := 2,
        last_violation_time := 1 } "   " 3 =
      (none, { messages := ["привет"], timestamps := [1], spam_violations := 2,
               last_violation_time := 1 }) :=
  ⟨by decide, C10_whitespace_noop ratioZero _ "   " 3 (by decide)⟩

end SkvBot
